import Mathlib

/-!
Verification development for the Label-Printer reconciliation scripts.

The repository is a set of Python scripts that read a spreadsheet of article
records, fetch the article catalog of an inventory system over a paginated
HTTP API, diff the two identifier sets, and prepare import records with a
price/tier classification.  This file gives a shallow embedding of the parts
of those scripts that the specification talks about and proves (or refutes)
the specified properties.

Conventions of the embedding:
* Python floats are modelled as rationals (`ℚ`); the inputs at issue are
  finite decimal literals, which floats represent faithfully at the scale
  used here.
* A spreadsheet cell is `Cell`: missing (`pandas` NA), a string, or a number.
* The dynamically typed result of the price coercion `to_float` (which can
  be either a float or the literal string "Auf Anfrage") is `PriceVal`.
* Python expressions that can raise `TypeError` (ordering a string against a
  number) are modelled in the `Except Unit` monad; `Except.error ()` is an
  uncaught exception.
* String operations are re-implemented over `List Char` (`String.data`) so
  that every definition evaluates by kernel reduction; the needles of the
  `str.replace` calls in the source are single characters, so those calls
  are character maps/filters.
-/

/-! ## Character-list string primitives -/

/-- Numeric value of a list of decimal digits (most significant first). -/
def digitsVal (s : List Char) : ℕ :=
  s.foldl (fun a c => 10 * a + (c.toNat - 48)) 0

/-- All characters are decimal digits. -/
def allDigits (s : List Char) : Bool := s.all Char.isDigit

/-- The list starts with the given character. -/
def headIs (c : Char) : List Char → Bool
  | [] => false
  | d :: _ => d == c

/-- Split a character list at every occurrence of a separator character. -/
def splitOnChar (sep : Char) : List Char → List (List Char)
  | [] => [[]]
  | c :: rest =>
      let r := splitOnChar sep rest
      if c == sep then [] :: r
      else
        match r with
        | h :: t => (c :: h) :: t
        | [] => [[c]]

/-- The second list is an initial segment of the first. -/
def leadsWith : List Char → List Char → Bool
  | _, [] => true
  | [], _ :: _ => false
  | c :: cs, d :: ds => c == d && leadsWith cs ds

/-- Substring containment, the Python `needle in hay` test on strings. -/
def containsSub : List Char → List Char → Bool
  | [], needle => needle.isEmpty
  | hay@(_ :: rest), needle => leadsWith hay needle || containsSub rest needle

/-- Strip surrounding whitespace, the Python `str.strip()`. -/
def pyTrim (s : List Char) : List Char :=
  ((s.dropWhile Char.isWhitespace).reverse.dropWhile Char.isWhitespace).reverse

/-! ## Python float parsing

`pyFloat?` models the Python built-in `float(string)` on the decimal
grammar: optional sign, digits with at most one decimal point (at least one
digit overall), and an optional exponent part.  The special spellings
(`inf`, `nan`, underscore digit grouping) that `float` also accepts are
outside the data this repository feeds it and are not modelled.  A parsed
value is assembled as one `mkRat` of an integer numerator over a power of
ten, which is the exact value of the literal. -/

/-- Mantissa digits: numerator and the number of fractional digits. -/
def parseMantissa (m : List Char) : Option (ℕ × ℕ) :=
  match splitOnChar '.' m with
  | [i] => if !i.isEmpty && allDigits i then some (digitsVal i, 0) else none
  | [i, f] =>
      if (!i.isEmpty || !f.isEmpty) && allDigits i && allDigits f then
        some (digitsVal i * 10 ^ f.length + digitsVal f, f.length)
      else none
  | _ => none

/-- Exponent part: sign flag and magnitude. -/
def parseExpPart (e : List Char) : Option (Bool × ℕ) :=
  let eneg := headIs '-' e
  let ebody := if headIs '-' e || headIs '+' e then e.tail else e
  if !ebody.isEmpty && allDigits ebody then some (eneg, digitsVal ebody) else none

/-- Assemble the parsed pieces into a rational value. -/
def assembleFloat (neg : Bool) (n k : ℕ) (eneg : Bool) (en : ℕ) : ℚ :=
  let numAbs : ℕ := n * (if eneg then 1 else 10 ^ en)
  let num : ℤ := if neg then -(numAbs : ℤ) else (numAbs : ℤ)
  let den : ℕ := 10 ^ k * (if eneg then 10 ^ en else 1)
  mkRat num den

/-- Python `float(s)` on the decimal grammar, `none` when `float` raises. -/
def pyFloat? (s : List Char) : Option ℚ :=
  let t := pyTrim s
  let neg := headIs '-' t
  let body := if headIs '-' t || headIs '+' t then t.tail else t
  let body := body.map (fun c => if c == 'E' then 'e' else c)
  match splitOnChar 'e' body with
  | [m] =>
      match parseMantissa m with
      | some (n, k) => some (assembleFloat neg n k false 0)
      | none => none
  | [m, e] =>
      match parseMantissa m, parseExpPart e with
      | some (n, k), some (eneg, en) => some (assembleFloat neg n k eneg en)
      | _, _ => none
  | _ => none

/-! ## Cells and price coercion -/

/-- A spreadsheet cell as `pandas` hands it to the scripts: missing (NA),
a string, or a numeric value. -/
inductive Cell where
  | na
  | str (v : String)
  | num (q : ℚ)
deriving DecidableEq

/-- The dynamically typed result of `to_float` in prepare-import-data.py:
either the literal string marker "Auf Anfrage" or a float. -/
inductive PriceVal where
  | onRequest
  | num (q : ℚ)
deriving DecidableEq

/-- Price coercion, prepare-import-data.py lines 86-99 (`to_float`):
NA coerces to 0; a string containing "Auf Anfrage" or "auf Anfrage" is the
on-request marker; otherwise the string is parsed as a float after turning
commas into points and dropping euro signs, with unparseable strings
coercing to 0; a numeric cell is its own value. -/
def to_float : Cell → PriceVal
  | Cell.na => PriceVal.num 0
  | Cell.num q => PriceVal.num q
  | Cell.str v =>
      let l := v.data
      if containsSub l "Auf Anfrage".data || containsSub l "auf Anfrage".data then
        PriceVal.onRequest
      else
        match pyFloat? ((l.map (fun c => if c == ',' then '.' else c)).filter (fun c => !(c == '€'))) with
        | some q => PriceVal.num q
        | none => PriceVal.num 0

/-- Lower-case an ASCII letter. -/
def lowerChar (c : Char) : Char :=
  if c.isUpper then Char.ofNat (c.toNat + 32) else c

/-- Modelled from the spec: case-insensitive on-request marker matching, the
matching rule the specification describes for the numeric coercion policy
("matches an on-request marker (case-insensitive)").  The source scripts
have no such definition; this one exists to be compared with `to_float`. -/
def specMarkerCI (s : String) : Bool :=
  containsSub (s.data.map lowerChar) "auf anfrage".data

/-! ## Price classification -/

/-- The classification buckets, named after the counters the script keeps
(prepare-import-data.py lines 56-62 and 106-145). -/
inductive Bucket where
  | onRequest
  | tiered
  | singlePrice
  | noValidPrice
deriving DecidableEq

/-- The fields of the prepared import record that the classification
branches write (prepare-import-data.py lines 64-151).  `needsTierQuantities`
models `manufacturer = 'NEEDS_TIER_QUANTITIES'`. -/
structure ImportArticle where
  price : ℚ
  tieredPrices : List ℚ
  tieredPricesText : Option String
  verified : Bool
  needsTierQuantities : Bool
deriving DecidableEq

/-- Decidable equality of modelled Python outcomes (exception or value). -/
instance {ε α : Type} [DecidableEq ε] [DecidableEq α] : DecidableEq (Except ε α)
  | Except.error x, Except.error y =>
      if h : x = y then isTrue (congrArg Except.error h)
      else isFalse (fun hc => h (Except.error.inj hc))
  | Except.error _, Except.ok _ => isFalse (fun hc => Except.noConfusion hc)
  | Except.ok _, Except.error _ => isFalse (fun hc => Except.noConfusion hc)
  | Except.ok x, Except.ok y =>
      if h : x = y then isTrue (congrArg Except.ok h)
      else isFalse (fun hc => h (Except.ok.inj hc))

/-- The coerced value is the on-request marker (Python `preis == 'Auf Anfrage'`). -/
def pvIsMarker : PriceVal → Bool
  | PriceVal.onRequest => true
  | PriceVal.num _ => false

/-- Python `==` between two coerced price values: cross-type comparison is
`False`, same-type comparison is value equality. -/
def pvEq : PriceVal → PriceVal → Bool
  | PriceVal.onRequest, PriceVal.onRequest => true
  | PriceVal.num a, PriceVal.num b => decide (a = b)
  | _, _ => false

/-- Python `preis > 0` on a coerced value: raises `TypeError` when the value
is the marker string, otherwise compares. -/
def pyGt0 : PriceVal → Except Unit Bool
  | PriceVal.onRequest => Except.error ()
  | PriceVal.num q => Except.ok (decide (0 < q))

/-- Numeric payload of a coerced value; only applied where the marker case
has already been excluded by the surrounding branch. -/
def pvNum : PriceVal → ℚ
  | PriceVal.onRequest => 0
  | PriceVal.num q => q

/-- Classification body of prepare-import-data.py lines 106-145, applied to
the already coerced price values.  The branch structure, the evaluation
order of the short-circuiting comparisons (each of which can raise), and
the written record fields follow the source line by line. -/
def classifyVals (p1 p2 p3 p4 : PriceVal) : Except Unit (Bucket × ImportArticle) :=
  if pvIsMarker p1 ||
     (pvEq p1 (PriceVal.num 0) && pvEq p2 (PriceVal.num 0) &&
      pvEq p3 (PriceVal.num 0) && pvEq p4 (PriceVal.num 0)) then
    Except.ok (Bucket.onRequest,
      { price := 0, tieredPrices := [], tieredPricesText := some "Auf Anfrage",
        verified := true, needsTierQuantities := false })
  else do
    let g2 ← pyGt0 p2
    let cond ←
      if g2 then pure true
      else do
        let g3 ← pyGt0 p3
        if g3 then pure true else pyGt0 p4
    if cond then do
      let g1 ← pyGt0 p1
      let base := if g1 then pvNum p1 else pvNum p2
      let t2 ← pyGt0 p2
      let tiers2 := if t2 && !(pvEq p2 p1) then [pvNum p2] else []
      let t3 ← pyGt0 p3
      let tiers3 := if t3 && !(pvEq p3 p2) then [pvNum p3] else []
      let t4 ← pyGt0 p4
      let tiers4 := if t4 && !(pvEq p4 p3) then [pvNum p4] else []
      let tiers := tiers2 ++ tiers3 ++ tiers4
      if tiers.isEmpty then
        Except.ok (Bucket.singlePrice,
          { price := base, tieredPrices := [], tieredPricesText := none,
            verified := true, needsTierQuantities := false })
      else
        Except.ok (Bucket.tiered,
          { price := base, tieredPrices := tiers, tieredPricesText := none,
            verified := false, needsTierQuantities := true })
    else do
      let g1 ← pyGt0 p1
      if g1 then
        Except.ok (Bucket.singlePrice,
          { price := pvNum p1, tieredPrices := [], tieredPricesText := none,
            verified := true, needsTierQuantities := false })
      else
        Except.ok (Bucket.noValidPrice,
          { price := 0, tieredPrices := [], tieredPricesText := some "Preis nicht verfügbar",
            verified := true, needsTierQuantities := false })

/-- Full classification of one spreadsheet row: coerce the four price cells
(prepare-import-data.py lines 101-104), then classify. -/
def classify (c1 c2 c3 c4 : Cell) : Except Unit (Bucket × ImportArticle) :=
  classifyVals (to_float c1) (to_float c2) (to_float c3) (to_float c4)

/-! ## Classification statistics -/

/-- The counters of prepare-import-data.py lines 57-62. -/
structure Stats where
  single_price : ℕ
  tiered_price : ℕ
  auf_anfrage : ℕ
  needs_tier_quantities : ℕ
deriving DecidableEq

/-- All counters start at zero. -/
def initStats : Stats :=
  { single_price := 0, tiered_price := 0, auf_anfrage := 0, needs_tier_quantities := 0 }

/-- The counter increments of the classification branches: the on-request
branch and the no-valid-price branch both bump `auf_anfrage` (lines 110 and
145), the tiered branch bumps `tiered_price` and `needs_tier_quantities`
(lines 130-131), the remaining branches bump `single_price` (lines 134,
139). -/
def bumpStats (s : Stats) : Bucket → Stats
  | Bucket.onRequest => { s with auf_anfrage := s.auf_anfrage + 1 }
  | Bucket.noValidPrice => { s with auf_anfrage := s.auf_anfrage + 1 }
  | Bucket.tiered =>
      { s with tiered_price := s.tiered_price + 1,
               needs_tier_quantities := s.needs_tier_quantities + 1 }
  | Bucket.singlePrice => { s with single_price := s.single_price + 1 }

/-- The four price cells of one spreadsheet row, the part of the row the
classification reads. -/
structure SpreadsheetRecord where
  preis1 : Cell
  preis2 : Cell
  preis3 : Cell
  preis4 : Cell

/-- The loop of prepare-import-data.py lines 64-151 over the missing
records, accumulating the statistics; a `TypeError` in one iteration aborts
the run. -/
def processAll (s : Stats) : List SpreadsheetRecord → Except Unit Stats
  | [] => Except.ok s
  | r :: rest =>
      match classify r.preis1 r.preis2 r.preis3 r.preis4 with
      | Except.error e => Except.error e
      | Except.ok (b, _) => processAll (bumpStats s b) rest

/-! ## Reconciliation -/

/-- The three identifier sets every script derives from the spreadsheet set
and the catalog set. -/
structure ReconciliationResult where
  matched : Finset String
  spreadsheetOnly : Finset String
  catalogOnly : Finset String

/-- The set diff of check-missing-correct.py lines 81-82 (`found`/`missing`)
together with the `only_in_system` side of the partition loop of
mark-non-excel-articles.py lines 66-77. -/
def reconcile (S C : Finset String) : ReconciliationResult :=
  { matched := S ∩ C, spreadsheetOnly := S \ C, catalogOnly := C \ S }

/-- Coverage ratio as compare-excel-system.py line 130 computes it (the
script formats it as a percentage; this is the underlying fraction): the
matched fraction of the spreadsheet set, with the guard `if excel_articles
else "0%"` giving 0 on an empty spreadsheet set. -/
def coverage (S C : Finset String) : ℚ :=
  if S = ∅ then 0 else mkRat ((S ∩ C).card : ℤ) S.card

/-- Coverage as check-missing-correct.py line 116 computes it, with no
empty-set guard: `none` models the `ZeroDivisionError` raised when the
spreadsheet set is empty. -/
def coverageUnguarded (S C : Finset String) : Option ℚ :=
  if S = ∅ then none else some (mkRat ((S ∩ C).card : ℤ) S.card)

/-! ## Catalog fetching -/

/-- One page response of the catalog API: the `success` flag, the `data`
records (reduced to their identifiers), and `pagination.hasNext`. -/
structure Page where
  success : Bool
  data : List String
  hasNext : Bool
deriving DecidableEq

/-- The pagination loop of check-missing-correct.py lines 50-66, consuming
the queue of page responses the endpoint would return: a successful page is
accumulated and the loop continues while `hasNext`; any other response ends
the loop with the records gathered so far. -/
def fetchAll : List Page → List String
  | [] => []
  | p :: rest =>
      if p.success then p.data ++ (if p.hasNext then fetchAll rest else [])
      else []

/-! ## Output artifact of the comparison scripts -/

/-- The JSON result of compare-excel-system.py lines 122-134 reduced to its
deterministically ordered core: the `pd.Timestamp.now()` reading is an
explicit argument, the summary counts and the sorted identifier list are
computed from the inputs. -/
structure CompareResult where
  timestamp : String
  totalInExcel : ℕ
  totalInSystem : ℕ
  foundInBoth : ℕ
  missingInSystem : ℕ
  coverage : ℚ
  missingArticleNumbers : List String
deriving DecidableEq

/-- One run of the comparison script on the two identifier sets at a given
clock reading. -/
def compareRun (S C : Finset String) (now : String) : CompareResult :=
  { timestamp := now
    totalInExcel := S.card
    totalInSystem := C.card
    foundInBoth := (S ∩ C).card
    missingInSystem := (S \ C).card
    coverage := coverage S C
    missingArticleNumbers := (S \ C).sort (· ≤ ·) }

/-! ## Identifier extraction -/

/-- Python `str.strip()` on a `String`. -/
def strTrim (v : String) : String := String.mk (pyTrim v.data)

/-- The extraction loop of check-missing-correct.py lines 27-32: a row cell
is `none` when `pd.notna` fails, otherwise the cell text; a trimmed value
that is empty or the literal "nan" is skipped, everything else is added to
the identifier set. -/
def extractIds : List (Option String) → Finset String
  | [] => ∅
  | none :: rest => extractIds rest
  | some v :: rest =>
      if strTrim v ≠ "" ∧ strTrim v ≠ "nan" then insert (strTrim v) (extractIds rest)
      else extractIds rest

/-- The rows the extraction loop skips. -/
def rowSkipped : Option String → Bool
  | none => true
  | some v => decide (strTrim v = "" ∨ strTrim v = "nan")

/-- Number of skipped rows in a source. -/
def skippedCount (rows : List (Option String)) : ℕ :=
  (rows.filter (fun r => rowSkipped r)).length

/-- The numeric diagnostics the script prints while extracting: the row
count (check-missing-correct.py line 20) and the count of unique extracted
identifiers (line 34).  Nothing else is reported. -/
def extractReport (rows : List (Option String)) : List ℕ :=
  [rows.length, (extractIds rows).card]

/-! ## Reconciliation properties -/

/-- Claim C1: for all (already normalized) spreadsheet identifiers S and
catalog identifiers C, the reconciler computes matched = S ∩ C,
spreadsheetOnly = S − C and catalogOnly = C − S; the three sets are
pairwise disjoint, matched ∪ spreadsheetOnly = S and
matched ∪ catalogOnly = C. -/
theorem reconcile_partition (S C : Finset String) :
    (reconcile S C).matched ∪ (reconcile S C).spreadsheetOnly = S ∧
    (reconcile S C).matched ∪ (reconcile S C).catalogOnly = C ∧
    Disjoint (reconcile S C).matched (reconcile S C).spreadsheetOnly ∧
    Disjoint (reconcile S C).matched (reconcile S C).catalogOnly ∧
    Disjoint (reconcile S C).spreadsheetOnly (reconcile S C).catalogOnly := by
  refine ⟨?_, ?_, ?_, ?_, ?_⟩
  · ext x; simp [reconcile]; tauto
  · ext x; simp [reconcile]; tauto
  · rw [Finset.disjoint_left]
    intro x hx hy
    simp [reconcile] at hx hy
    tauto
  · rw [Finset.disjoint_left]
    intro x hx hy
    simp [reconcile] at hx hy
    tauto
  · rw [Finset.disjoint_left]
    intro x hx hy
    simp [reconcile] at hx hy
    tauto

/-- Claim C2 counterexample: on an empty spreadsheet set the guarded script
reports coverage 0, not the claimed 1.0, and the unguarded script raises
`ZeroDivisionError` instead of producing a value. -/
theorem coverage_empty_counterexample :
    coverage ∅ ∅ = 0 ∧ (0 : ℚ) ≠ 1 ∧ coverageUnguarded ∅ ∅ = none := by
  refine ⟨by simp [coverage], by norm_num, by simp [coverageUnguarded]⟩

/-- Claim C2 (amended): the coverage ratio lies in [0,1] and equals
|matched| / |S| when S is non-empty; when S is empty, compare-excel-system
reports 0 (not 1.0) and check-missing-correct raises `ZeroDivisionError`. -/
theorem coverage_spec (S C : Finset String) (h : S.Nonempty) :
    0 ≤ coverage S C ∧ coverage S C ≤ 1 ∧
    coverage S C = ((reconcile S C).matched.card : ℚ) / (S.card : ℚ) ∧
    coverage ∅ C = 0 ∧ coverageUnguarded ∅ C = none := by
  have hne : S ≠ ∅ := h.ne_empty
  have hpos : 0 < (S.card : ℚ) := by
    have := Finset.card_pos.mpr h
    exact_mod_cast this
  have hle : ((S ∩ C).card : ℚ) ≤ (S.card : ℚ) := by
    exact_mod_cast Finset.card_le_card (Finset.inter_subset_left)
  have heq : coverage S C = ((S ∩ C).card : ℚ) / (S.card : ℚ) := by
    rw [coverage, if_neg hne, Rat.mkRat_eq_div]
    push_cast
    ring
  refine ⟨?_, ?_, ?_, by simp [coverage], by simp [coverageUnguarded]⟩
  · rw [heq]
    positivity
  · rw [heq]
    exact div_le_one_of_le₀ hle (le_of_lt hpos)
  · rw [heq]; rfl

/-- Claim C2 witness: the amended statement at S = {"A"}, C = {"A", "B"}. -/
theorem coverage_spec_witness :
    0 ≤ coverage {"A"} {"A", "B"} ∧ coverage {"A"} {"A", "B"} ≤ 1 ∧
    coverage {"A"} {"A", "B"} =
      ((reconcile {"A"} {"A", "B"}).matched.card : ℚ) / (({"A"} : Finset String).card : ℚ) ∧
    coverage ∅ {"A", "B"} = 0 ∧ coverageUnguarded ∅ {"A", "B"} = none :=
  coverage_spec {"A"} {"A", "B"} (by simp)

/-! ## Catalog fetcher properties -/

/-- Claim C7: when the fetcher meets a page whose envelope has
success = false, it stops pagination and returns exactly the records
accumulated from the preceding successful pages, without raising. -/
theorem fetchAll_stops_on_failure (good : List Page) (bad : Page) (rest : List Page)
    (hg : ∀ p ∈ good, p.success = true ∧ p.hasNext = true)
    (hb : bad.success = false) :
    fetchAll (good ++ bad :: rest) = (good.map Page.data).flatten := by
  induction good with
  | nil => simp [fetchAll, hb]
  | cons p tl ih =>
      have hp := hg p (by simp)
      have htl : ∀ q ∈ tl, q.success = true ∧ q.hasNext = true := by
        intro q hq
        exact hg q (by simp [hq])
      simp [fetchAll, hp.1, hp.2, ih htl]

/-- Claim C7 witness: one successful page followed by a failing page yields
exactly the first page's records. -/
theorem fetchAll_stops_on_failure_witness :
    fetchAll [⟨true, ["a", "b"], true⟩, ⟨false, ["z"], true⟩, ⟨true, ["c"], false⟩]
      = ["a", "b"] := by
  have := fetchAll_stops_on_failure [⟨true, ["a", "b"], true⟩] ⟨false, ["z"], true⟩
    [⟨true, ["c"], false⟩] (by decide) (by decide)
  simpa using this

/-! ## Idempotence of the comparison output -/

/-- Claim C8 counterexample: two runs of the comparison script on identical
spreadsheet and catalog inputs produce different output artifacts, because
the artifact embeds the `pd.Timestamp.now()` clock reading. -/
theorem compareRun_not_idempotent :
    compareRun {"A"} ∅ "2025-01-01T00:00:00" ≠ compareRun {"A"} ∅ "2025-01-01T00:00:01" := by
  intro h
  have := congrArg CompareResult.timestamp h
  simp only [compareRun] at this
  exact absurd this (by decide)

/-- Claim C8 (amended): apart from the embedded timestamp field, the output
artifact is a pure function of the two input sets — two runs on identical
inputs agree on every other field — and the identifier list it carries is
sorted. -/
theorem compareRun_deterministic_mod_timestamp (S C : Finset String) (t t2 : String) :
    (compareRun S C t).timestamp = t ∧
    { compareRun S C t with timestamp := t2 } = compareRun S C t2 ∧
    List.Sorted (· ≤ ·) (compareRun S C t).missingArticleNumbers := by
  refine ⟨rfl, rfl, ?_⟩
  exact Finset.sort_sorted _ _

/-! ## Identifier extractor properties -/

/-- Claim C9 counterexample: a source with four rows, two of them skipped
(literal "nan"), two of them duplicates of one identifier; the skip total 2
is not among the numeric diagnostics the script reports (row count 4 and
unique-identifier count 1), nor derivable from them. -/
theorem extract_report_counterexample :
    skippedCount [some "A", some "A", some "nan", some "nan"] = 2 ∧
    2 ∉ extractReport [some "A", some "A", some "nan", some "nan"] := by
  decide

/-- Claim C9 (amended): the extractor silently skips (without raising) every
row whose identifier cell is absent, blank, or the literal "nan" — such rows
contribute nothing to the returned identifier set — but it does not count or
report the skipped rows: the only extraction diagnostics are the row count
and the extracted unique-identifier count. -/
theorem extract_skips_unusable (r : Option String) (rows : List (Option String))
    (h : rowSkipped r = true) :
    extractIds (r :: rows) = extractIds rows ∧
    extractIds rows = extractIds (rows.filter (fun x => !rowSkipped x)) ∧
    extractReport rows = [rows.length, (extractIds rows).card] := by
  refine ⟨?_, ?_, rfl⟩
  · cases r with
    | none => rfl
    | some v =>
        have hv : strTrim v = "" ∨ strTrim v = "nan" := by
          simpa [rowSkipped] using h
        have : ¬(strTrim v ≠ "" ∧ strTrim v ≠ "nan") := by tauto
        simp [extractIds, this]
  · induction rows with
    | nil => rfl
    | cons x tl ih =>
        cases x with
        | none => simpa [rowSkipped] using ih
        | some v =>
            by_cases hs : strTrim v = "" ∨ strTrim v = "nan"
            · have : ¬(strTrim v ≠ "" ∧ strTrim v ≠ "nan") := by tauto
              simp [extractIds, this, List.filter, rowSkipped, hs, ih]
            · have hc : strTrim v ≠ "" ∧ strTrim v ≠ "nan" := by tauto
              simp [extractIds, hc, List.filter, rowSkipped, hs, ih]

/-- Claim C9 witness: the amended statement at a skipped "nan" row in front
of one usable row. -/
theorem extract_skips_unusable_witness :
    extractIds [some "nan", some "B"] = extractIds [some "B"] ∧
    extractIds [some "B"] = extractIds ([some "B"].filter (fun x => !rowSkipped x)) ∧
    extractReport [some "B"] = [[some "B"].length, (extractIds [some "B"]).card] :=
  extract_skips_unusable (some "nan") [some "B"] (by decide)

/-! ## Classification helper lemmas -/

/-- Binding a successful outcome applies the continuation. -/
theorem exceptBind_ok {ε α β : Type} (a : α) (f : α → Except ε β) :
    Bind.bind (Except.ok a : Except ε α) f = f a := rfl

/-- Binding a raised exception propagates it. -/
theorem exceptBind_err {ε α β : Type} (e : ε) (f : α → Except ε β) :
    Bind.bind (Except.error e : Except ε α) f = Except.error e := rfl

/-- The pure value of the outcome monad is a successful outcome. -/
theorem exceptPure {ε α : Type} (a : α) :
    (pure a : Except ε α) = Except.ok a := rfl

/-- A coerced value that is not the marker is a number. -/
theorem pv_not_marker (p : PriceVal) (h : pvIsMarker p = false) : ∃ q, p = PriceVal.num q := by
  cases p with
  | onRequest => simp [pvIsMarker] at h
  | num q => exact ⟨q, rfl⟩

/-- A coerced value that is the marker is the marker constructor. -/
theorem pv_marker_eq (p : PriceVal) (h : pvIsMarker p = true) : p = PriceVal.onRequest := by
  cases p with
  | onRequest => rfl
  | num q => simp [pvIsMarker] at h

/-- A marker in the first price field takes the on-request branch whatever
the other fields hold. -/
theorem classifyVals_marker (p2 p3 p4 : PriceVal) :
    classifyVals PriceVal.onRequest p2 p3 p4 =
      Except.ok (Bucket.onRequest,
        { price := 0, tieredPrices := [], tieredPricesText := some "Auf Anfrage",
          verified := true, needsTierQuantities := false }) := by
  simp [classifyVals, pvIsMarker]

/-- Four zero prices take the on-request branch. -/
theorem classifyVals_zero :
    classifyVals (PriceVal.num 0) (PriceVal.num 0) (PriceVal.num 0) (PriceVal.num 0) =
      Except.ok (Bucket.onRequest,
        { price := 0, tieredPrices := [], tieredPricesText := some "Auf Anfrage",
          verified := true, needsTierQuantities := false }) := by
  decide

/-- Classification of four numeric prices always succeeds. -/
theorem classifyVals_num_ok (q1 q2 q3 q4 : ℚ) :
    ∃ r, classifyVals (PriceVal.num q1) (PriceVal.num q2) (PriceVal.num q3) (PriceVal.num q4) =
      Except.ok r := by
  simp only [classifyVals, pyGt0, pvIsMarker, pvEq, pvNum, Bool.false_or, exceptBind_ok,
    exceptPure]
  split_ifs <;> exact ⟨_, rfl⟩

/-- A marker in one of the last three price fields, with a numeric first
field, raises `TypeError`: the marker either fails the branch test
`preis > 0` or is compared inside the tier scan. -/
theorem classifyVals_num_err (q1 : ℚ) (p2 p3 p4 : PriceVal)
    (h : pvIsMarker p2 = true ∨ pvIsMarker p3 = true ∨ pvIsMarker p4 = true) :
    classifyVals (PriceVal.num q1) p2 p3 p4 = Except.error () := by
  cases p2 with
  | onRequest =>
      simp [classifyVals, pvIsMarker, pvEq, pyGt0, exceptBind_ok, exceptBind_err, exceptPure]
  | num q2 =>
      cases p3 with
      | onRequest =>
          simp only [classifyVals, pvIsMarker, pvEq, pyGt0, exceptBind_ok, exceptBind_err,
            exceptPure, Bool.false_or]
          split_ifs <;> simp_all [exceptBind_ok, exceptBind_err]
      | num q3 =>
          cases p4 with
          | onRequest =>
              simp only [classifyVals, pvIsMarker, pvEq, pyGt0, exceptBind_ok, exceptBind_err,
                exceptPure, Bool.false_or]
              split_ifs <;> simp_all [exceptBind_ok, exceptBind_err]
          | num q4 => simp [pvIsMarker] at h

/-- With four numeric prices, one of the last three positive, the tiered
branch runs: base price is price1 when positive else price2, the tier list
keeps each of price2..price4 that is positive and differs from the field
before it, and an empty tier list falls back to the single-price outcome. -/
theorem classifyVals_tiered (q1 q2 q3 q4 : ℚ) (h : 0 < q2 ∨ 0 < q3 ∨ 0 < q4) :
    classifyVals (PriceVal.num q1) (PriceVal.num q2) (PriceVal.num q3) (PriceVal.num q4) =
      (if ((if 0 < q2 ∧ q2 ≠ q1 then [q2] else []) ++ (if 0 < q3 ∧ q3 ≠ q2 then [q3] else []) ++
           (if 0 < q4 ∧ q4 ≠ q3 then [q4] else [])) = [] then
         Except.ok (Bucket.singlePrice,
           { price := if 0 < q1 then q1 else q2, tieredPrices := [], tieredPricesText := none,
             verified := true, needsTierQuantities := false })
       else
         Except.ok (Bucket.tiered,
           { price := if 0 < q1 then q1 else q2,
             tieredPrices := (if 0 < q2 ∧ q2 ≠ q1 then [q2] else []) ++
               (if 0 < q3 ∧ q3 ≠ q2 then [q3] else []) ++ (if 0 < q4 ∧ q4 ≠ q3 then [q4] else []),
             tieredPricesText := none, verified := false, needsTierQuantities := true })) := by
  have hnz : ¬(q1 = 0 ∧ q2 = 0 ∧ q3 = 0 ∧ q4 = 0) := by
    rcases h with h | h | h <;> rintro ⟨a, b, c, d⟩ <;> simp_all
  simp only [classifyVals, pyGt0, pvIsMarker, pvEq, pvNum, Bool.false_or, exceptBind_ok,
    exceptPure, Bool.and_eq_true, decide_eq_true_eq]
  rw [if_neg (by simpa using hnz)]
  by_cases h2 : 0 < q2 <;> by_cases h3 : 0 < q3 <;> by_cases h4 : 0 < q4 <;>
    (simp [h2, h3, h4, List.isEmpty_iff, exceptBind_ok, exceptPure]; try tauto)

/-! ## Classification claim theorems -/

/-- Claim C3 counterexample: a record with a numeric price1 and the
on-request text in price2 makes the classification raise `TypeError`
(Python compares the marker string against 0), so classification is not
total. -/
theorem classify_raises_counterexample :
    classify (Cell.num 1) (Cell.str "Auf Anfrage") Cell.na Cell.na = Except.error () := by
  decide

/-- Claim C3 (amended): classification is deterministic and, when it
completes, assigns exactly one bucket; it completes without raising exactly
for the records whose price1 coerces to the on-request marker or whose
price2, price3 and price4 all coerce to numbers.  A marker in one of the
last three fields of any other record raises `TypeError`. -/
theorem classify_total_amended (c1 c2 c3 c4 : Cell) :
    (∃! r : Bucket × ImportArticle, classify c1 c2 c3 c4 = Except.ok r) ↔
      (pvIsMarker (to_float c1) = true ∨
       (pvIsMarker (to_float c2) = false ∧ pvIsMarker (to_float c3) = false ∧
        pvIsMarker (to_float c4) = false)) := by
  constructor
  · intro hok
    by_contra hn
    rcases not_or.mp hn with ⟨h1, htail⟩
    simp only [Bool.not_eq_true] at h1
    have hm : pvIsMarker (to_float c2) = true ∨ pvIsMarker (to_float c3) = true ∨
        pvIsMarker (to_float c4) = true := by
      by_contra hc
      push_neg at hc
      simp only [Bool.not_eq_true] at hc
      exact htail ⟨hc.1, hc.2.1, hc.2.2⟩
    obtain ⟨q1, e1⟩ := pv_not_marker _ h1
    obtain ⟨r, hr, -⟩ := hok
    rw [classify, e1, classifyVals_num_err q1 _ _ _ hm] at hr
    exact Except.noConfusion hr
  · intro h
    have hex : ∃ r, classify c1 c2 c3 c4 = Except.ok r := by
      rcases h with h | ⟨h2, h3, h4⟩
      · rw [classify, pv_marker_eq _ h, classifyVals_marker]
        exact ⟨_, rfl⟩
      · by_cases h1 : pvIsMarker (to_float c1) = true
        · rw [classify, pv_marker_eq _ h1, classifyVals_marker]
          exact ⟨_, rfl⟩
        · obtain ⟨q1, e1⟩ := pv_not_marker _ (by simpa using h1)
          obtain ⟨q2, e2⟩ := pv_not_marker _ h2
          obtain ⟨q3, e3⟩ := pv_not_marker _ h3
          obtain ⟨q4, e4⟩ := pv_not_marker _ h4
          rw [classify, e1, e2, e3, e4]
          exact classifyVals_num_ok q1 q2 q3 q4
    obtain ⟨r, hr⟩ := hex
    exact ⟨r, hr, fun y hy => Except.ok.inj (hy.symm.trans hr)⟩

/-- Claim C3 witness: a fully numeric record classifies to exactly one
outcome. -/
theorem classify_total_amended_witness :
    ∃! r : Bucket × ImportArticle,
      classify (Cell.num 1) (Cell.num 2) Cell.na Cell.na = Except.ok r :=
  (classify_total_amended (Cell.num 1) (Cell.num 2) Cell.na Cell.na).mpr (Or.inr (by decide))

/-- Claim C4 counterexample: a record whose price2 parses to the positive
number 5 but whose price1 is the on-request marker takes the on-request
branch — price 0, no tier list, verification flag true — instead of the
tiered treatment the claim prescribes for every record with a positive
price2..price4. -/
theorem classify_tiered_counterexample :
    to_float (Cell.num 5) = PriceVal.num 5 ∧ (0 : ℚ) < 5 ∧
    classify (Cell.str "Auf Anfrage") (Cell.num 5) Cell.na Cell.na =
      Except.ok (Bucket.onRequest,
        { price := 0, tieredPrices := [], tieredPricesText := some "Auf Anfrage",
          verified := true, needsTierQuantities := false }) ∧
    Bucket.onRequest ≠ Bucket.tiered := by
  decide

/-- Claim C4 (amended): for every record whose four price fields all coerce
to numbers and where at least one of price2, price3, price4 is positive,
the base price is price1 if positive else price2, the tier list keeps each
of price2, price3, price4 that is positive and strictly different from the
immediately preceding price field, a non-empty tier list yields the tiered
outcome with verification flag false and the needs-tier-quantities marking,
and an empty tier list yields the single-price outcome.  In particular
price1=10, price2=15, price3=15, price4=0 yields tiers=[15], base price 10,
needsTierQuantities=true, verified=false. -/
theorem classify_tiered_amended (c1 c2 c3 c4 : Cell) (q1 q2 q3 q4 : ℚ)
    (e1 : to_float c1 = PriceVal.num q1) (e2 : to_float c2 = PriceVal.num q2)
    (e3 : to_float c3 = PriceVal.num q3) (e4 : to_float c4 = PriceVal.num q4)
    (h : 0 < q2 ∨ 0 < q3 ∨ 0 < q4) :
    (classify c1 c2 c3 c4 =
      (if ((if 0 < q2 ∧ q2 ≠ q1 then [q2] else []) ++ (if 0 < q3 ∧ q3 ≠ q2 then [q3] else []) ++
           (if 0 < q4 ∧ q4 ≠ q3 then [q4] else [])) = [] then
         Except.ok (Bucket.singlePrice,
           { price := if 0 < q1 then q1 else q2, tieredPrices := [], tieredPricesText := none,
             verified := true, needsTierQuantities := false })
       else
         Except.ok (Bucket.tiered,
           { price := if 0 < q1 then q1 else q2,
             tieredPrices := (if 0 < q2 ∧ q2 ≠ q1 then [q2] else []) ++
               (if 0 < q3 ∧ q3 ≠ q2 then [q3] else []) ++ (if 0 < q4 ∧ q4 ≠ q3 then [q4] else []),
             tieredPricesText := none, verified := false, needsTierQuantities := true }))) ∧
    classify (Cell.num 10) (Cell.num 15) (Cell.num 15) (Cell.num 0) =
      Except.ok (Bucket.tiered,
        { price := 10, tieredPrices := [15], tieredPricesText := none,
          verified := false, needsTierQuantities := true }) := by
  refine ⟨?_, by decide⟩
  rw [classify, e1, e2, e3, e4]
  exact classifyVals_tiered q1 q2 q3 q4 h

/-- Claim C4 witness: the spec scenario price1=10, price2=15, price3=15,
price4=0. -/
theorem classify_tiered_amended_witness :
    classify (Cell.num 10) (Cell.num 15) (Cell.num 15) (Cell.num 0) =
      Except.ok (Bucket.tiered,
        { price := 10, tieredPrices := [15], tieredPricesText := none,
          verified := false, needsTierQuantities := true }) :=
  (classify_tiered_amended (Cell.num 10) (Cell.num 15) (Cell.num 15) (Cell.num 0)
    10 15 15 0 rfl rfl rfl rfl (by norm_num)).2

/-- Claim C5: a record whose price1 coerces to the on-request marker, or
whose four price fields all coerce to 0, produces the import record with
price 0, tier text "Auf Anfrage" and verification flag true. -/
theorem classify_on_request (c1 c2 c3 c4 : Cell)
    (h : pvIsMarker (to_float c1) = true ∨
         (to_float c1 = PriceVal.num 0 ∧ to_float c2 = PriceVal.num 0 ∧
          to_float c3 = PriceVal.num 0 ∧ to_float c4 = PriceVal.num 0)) :
    classify c1 c2 c3 c4 =
      Except.ok (Bucket.onRequest,
        { price := 0, tieredPrices := [], tieredPricesText := some "Auf Anfrage",
          verified := true, needsTierQuantities := false }) := by
  rcases h with h | ⟨h1, h2, h3, h4⟩
  · rw [classify, pv_marker_eq _ h, classifyVals_marker]
  · rw [classify, h1, h2, h3, h4, classifyVals_zero]

/-- Claim C5 witness: the spec scenario price1="Auf Anfrage". -/
theorem classify_on_request_witness :
    classify (Cell.str "Auf Anfrage") Cell.na Cell.na Cell.na =
      Except.ok (Bucket.onRequest,
        { price := 0, tieredPrices := [], tieredPricesText := some "Auf Anfrage",
          verified := true, needsTierQuantities := false }) :=
  classify_on_request (Cell.str "Auf Anfrage") Cell.na Cell.na Cell.na (Or.inl (by decide))

/-- Claim C6 counterexample: "AUF ANFRAGE" matches the on-request marker
case-insensitively, yet `to_float` coerces it to 0 rather than to the
on-request value — the source matches only the exact spellings
"Auf Anfrage" and "auf Anfrage". -/
theorem marker_case_counterexample :
    specMarkerCI "AUF ANFRAGE" = true ∧
    to_float (Cell.str "AUF ANFRAGE") = PriceVal.num 0 ∧
    PriceVal.num 0 ≠ PriceVal.onRequest := by
  decide

/-- Claim C6 (amended): the numeric coercion is total and: a text field
containing the marker in one of the exact spellings "Auf Anfrage" or
"auf Anfrage" (not case-insensitively) coerces to the on-request value; a
blank or unparseable field coerces to 0 (as does a missing cell); any other
field parses as a decimal number with comma accepted as decimal separator
and the currency symbol stripped, so "12,50 €" parses to 12.50. -/
theorem to_float_spec (v : String) :
    to_float Cell.na = PriceVal.num 0 ∧
    ((containsSub v.data "Auf Anfrage".data || containsSub v.data "auf Anfrage".data) = true →
      to_float (Cell.str v) = PriceVal.onRequest) ∧
    ((containsSub v.data "Auf Anfrage".data || containsSub v.data "auf Anfrage".data) = false →
      pyFloat? ((v.data.map (fun c => if c == ',' then '.' else c)).filter (fun c => !(c == '€'))) = none →
      to_float (Cell.str v) = PriceVal.num 0) ∧
    (∀ q : ℚ,
      (containsSub v.data "Auf Anfrage".data || containsSub v.data "auf Anfrage".data) = false →
      pyFloat? ((v.data.map (fun c => if c == ',' then '.' else c)).filter (fun c => !(c == '€'))) = some q →
      to_float (Cell.str v) = PriceVal.num q) ∧
    to_float (Cell.str "12,50 €") = PriceVal.num (25 / 2) ∧
    to_float (Cell.str "") = PriceVal.num 0 ∧
    to_float (Cell.str "  ") = PriceVal.num 0 ∧
    to_float (Cell.str "n/a") = PriceVal.num 0 := by
  have h1250 : to_float (Cell.str "12,50 €") = PriceVal.num (25 / 2) := by
    have hq : (25 / 2 : ℚ) = mkRat 25 2 := by norm_num [Rat.mkRat_eq_div]
    rw [hq]
    decide
  refine ⟨rfl, ?_, ?_, ?_, h1250, by decide, by decide, by decide⟩
  · intro h
    simp only [to_float, h]
    rfl
  · intro h hp
    simp only [to_float, h, Bool.false_eq_true, if_false, hp]
  · intro q h hp
    simp only [to_float, h, Bool.false_eq_true, if_false, hp]

/-- Claim C6 witness: a string containing the exactly spelled marker
coerces to the on-request value. -/
theorem to_float_spec_witness :
    to_float (Cell.str "zzz Auf Anfrage zzz") = PriceVal.onRequest :=
  (to_float_spec "zzz Auf Anfrage zzz").2.1 (by decide)

/-- Claim C10: on every input list on which classification completes, the
classification counters partition the records — single_price + tiered_price
+ auf_anfrage equals the number of records processed — and
needs_tier_quantities equals tiered_price. -/
theorem stats_partition (rs : List SpreadsheetRecord) (t : Stats)
    (h : processAll initStats rs = Except.ok t) :
    t.single_price + t.tiered_price + t.auf_anfrage = rs.length ∧
    t.needs_tier_quantities = t.tiered_price := by
  have main : ∀ (l : List SpreadsheetRecord) (s u : Stats),
      processAll s l = Except.ok u →
      u.single_price + u.tiered_price + u.auf_anfrage =
        s.single_price + s.tiered_price + s.auf_anfrage + l.length ∧
      u.needs_tier_quantities + s.tiered_price =
        u.tiered_price + s.needs_tier_quantities := by
    intro l
    induction l with
    | nil =>
        intro s u h
        simp only [processAll] at h
        cases h
        exact ⟨by simp, by omega⟩
    | cons r tl ih =>
        intro s u h
        simp only [processAll] at h
        cases hc : classify r.preis1 r.preis2 r.preis3 r.preis4 with
        | error e => rw [hc] at h; exact Except.noConfusion h
        | ok p =>
            rw [hc] at h
            obtain ⟨b, a⟩ := p
            have := ih (bumpStats s b) u h
            cases b <;> simp [bumpStats] at this <;>
              simp [List.length_cons] <;> omega
  have hm := main rs initStats t h
  simp only [initStats] at hm
  omega

/-- Claim C10 witness: one single-price record gives counters 1/0/0/0. -/
theorem stats_partition_witness :
    (Stats.mk 1 0 0 0).single_price + (Stats.mk 1 0 0 0).tiered_price +
        (Stats.mk 1 0 0 0).auf_anfrage =
      [(⟨Cell.num 5, Cell.na, Cell.na, Cell.na⟩ : SpreadsheetRecord)].length ∧
    (Stats.mk 1 0 0 0).needs_tier_quantities = (Stats.mk 1 0 0 0).tiered_price :=
  stats_partition [⟨Cell.num 5, Cell.na, Cell.na, Cell.na⟩] ⟨1, 0, 0, 0⟩ (by decide)
